import Mathlib

/-!
Verification of the Detection-Alert Orchestrator of the smart-farm
intrusion-detection repository (`tl3.py`).

Shallow embedding conventions:
* Python floats are modelled as exact rationals (`ℚ`); wall-clock values
  (`time.time()`) are rational inputs supplied per loop iteration.
* Network calls are modelled by their observable outcome, supplied as input:
  `CmdOutcome` for the actuator (buzzer) REST call, a Boolean `dispatchOk`
  for the alert-collector POST (whether `requests.post` returned a response
  object at all, of any status, as opposed to raising).
* The shared distance cell written by the listener thread is modelled as a
  per-iteration input; because the orchestrator loop reads it twice per
  iteration (once at the sampling gate, once at the buzzer trigger), the two
  reads are separate inputs `distGate` and `distTrigger`.
* An uncaught Python exception escaping the `while True:` body is modelled by
  the step function returning `none` for the next state (the loop terminates:
  the surrounding `try` only catches `KeyboardInterrupt`).
-/

namespace SmartFarm

/-- `self.distance_threshold = 50` (cm), set in `SmartAnimalDetector.__init__`. -/
def distance_threshold : ℚ := 50

/-- `self.buzzer_duration = 1.0` (seconds), set in `__init__`. -/
def buzzer_duration : ℚ := 1

/-- The hard-coded `0.5` second sampling interval of line 126,
`if current_time - last_detection_time >= 0.5`. -/
def samplingInterval : ℚ := 1/2

/-- `self.animal_classes`, the monitored allow-list from `__init__`. -/
def animal_classes : List String :=
  ["bird", "cat", "dog", "horse", "sheep", "cow",
   "elephant", "bear", "zebra", "giraffe", "rat"]

/-- `severity_order = ['low', 'medium', 'high', 'critical']` (line 143). -/
def severity_order : List String := ["low", "medium", "high", "critical"]

/-- `base_map` (lines 144-156): base severity by animal type. -/
def base_map : List (String × String) :=
  [("bird", "low"),
   ("rat", "low"),
   ("cat", "medium"),
   ("dog", "medium"),
   ("sheep", "medium"),
   ("horse", "high"),
   ("cow", "high"),
   ("bear", "high"),
   ("zebra", "high"),
   ("giraffe", "high"),
   ("elephant", "critical")]

/-- `conf_ranges` (lines 160-172): per-animal confidence remap range. -/
def conf_ranges : List (String × (ℚ × ℚ)) :=
  [("elephant", (8/10, 1)),
   ("bear", (8/10, 1)),
   ("horse", (7/10, 95/100)),
   ("cow", (7/10, 95/100)),
   ("zebra", (7/10, 95/100)),
   ("giraffe", (7/10, 95/100)),
   ("dog", (6/10, 9/10)),
   ("cat", (6/10, 9/10)),
   ("sheep", (6/10, 9/10)),
   ("bird", (4/10, 75/100)),
   ("rat", (4/10, 7/10))]

/-- Python `str.lower()` (ASCII case folding, which covers every class name
the model produces). -/
def pyLower (s : String) : String := String.mk (s.data.map Char.toLower)

/-- Observable outcome of one actuator REST call (`requests.post` in
`control_buzzer`): either a response with an HTTP status code, or a raised
exception (timeout, connection error, ...). -/
inductive CmdOutcome where
  | ok (status : Nat)
  | exn
deriving DecidableEq

/-- `SmartAnimalDetector.control_buzzer` (lines 45-60), restricted to its
effect on the tracked flag `self.buzzer_on`: the flag is assigned the
commanded `state` exactly when the POST returned status 200; on any other
status, or on an exception, the flag keeps its old value. -/
def control_buzzer (buzzer_on : Bool) (state : Bool) (outcome : CmdOutcome) : Bool :=
  match outcome with
  | .ok status => if status == 200 then state else buzzer_on
  | .exn => buzzer_on

/-- The severity offset drawn from `r = random.random()` (lines 188-196):
`if r < 0.05: 2 elif r < 0.20: 1 elif r < 0.25: -1 else: 0`. -/
def severityOffset (r : ℚ) : ℤ :=
  if r < 5/100 then 2
  else if r < 20/100 then 1
  else if r < 25/100 then -1
  else 0

/-- Severity synthesis (lines 184-199): look up the base severity for the
(lower-cased) label, defaulting to `"medium"`; clamp `base_idx + offset` into
`[0, len(severity_order) - 1]`; index into `severity_order`. -/
def severityOf (label : String) (r : ℚ) : String :=
  let base := (base_map.lookup label).getD "medium"
  let base_idx : ℤ := severity_order.indexOf base
  let severity_idx : ℤ :=
    max 0 (min ((severity_order.length : ℤ) - 1) (base_idx + severityOffset r))
  severity_order.getD severity_idx.toNat ""

/-- `round(x, 1)` on an exact rational: round to one decimal place. (Python
rounds ties to even on binary floats; on the exact rationals of this model
the two conventions differ only at exact multiples of 0.05, which the spec
does not pin down, so the standard `round` is used.) -/
def roundTo1 (x : ℚ) : ℚ := (round (x * 10) : ℤ) / 10

/-- Confidence remap (lines 180-182): map the raw model confidence into the
label's range (default `(0.5, 0.9)`), add the jitter drawn from
`random.uniform(-0.02, 0.02)`, clamp to `[0, 1]`. -/
def mappedConf (label : String) (rawConf : ℚ) (jitter : ℚ) : ℚ :=
  let lh := (conf_ranges.lookup label).getD (5/10, 9/10)
  max 0 (min 1 (lh.1 + (lh.2 - lh.1) * rawConf + jitter))

/-- `confidence_val = round(float(conf) * 100, 1)` (line 202). -/
def confidence_val (label : String) (rawConf : ℚ) (jitter : ℚ) : ℚ :=
  roundTo1 (mappedConf label rawConf jitter * 100)

/-! ## Distance telemetry listener (`distance_listener`, lines 63-89)

The listener loops on `conn.recv(1024)`; each received chunk is decoded,
stripped, and parsed with `float(...)` as a whole — there is no splitting of
a chunk at newline characters. A successful parse overwrites
`self.current_distance`; a `ValueError` leaves it unchanged (`continue`). -/

/-- Numeric value of an ASCII digit, `none` on any other character. -/
def digitVal (c : Char) : Option ℕ :=
  if c.isDigit then some (c.toNat - 48) else none

/-- Value of a run of characters read as base-10 digits; fails if any
character is not a digit. The empty run yields `some 0` (callers rule the
empty case out where Python would). -/
def natOfDigits (cs : List Char) : Option ℕ :=
  cs.foldl (fun acc c => acc.bind (fun n => (digitVal c).map (fun d => 10 * n + d)))
    (some 0)

/-- Python `float(s)` restricted to plain decimal literals without sign:
digits, optionally a single point with digits on at least one side. (The
builtin also accepts exponents, `inf`/`nan` and underscores; telemetry lines
from the ultrasonic sender are plain decimals, and any string this model
accepts, `float` accepts with the same value.) -/
def parseUnsigned (cs : List Char) : Option ℚ :=
  let ip := cs.takeWhile (fun c => c ≠ '.')
  match cs.dropWhile (fun c => c ≠ '.') with
  | [] =>
      if ip.isEmpty then none
      else (natOfDigits ip).map (fun n => (n : ℚ))
  | _ :: fp =>
      if ip.isEmpty && fp.isEmpty then none
      else
        match natOfDigits ip, natOfDigits fp with
        | some n, some f => some ((n : ℚ) + (f : ℚ) / 10 ^ fp.length)
        | _, _ => none

/-- Python `float(s)` on a stripped string: optional sign, then an unsigned
decimal literal. -/
def parseDecimal (cs : List Char) : Option ℚ :=
  match cs with
  | '+' :: rest => parseUnsigned rest
  | '-' :: rest => (parseUnsigned rest).map (fun q => -q)
  | _ => parseUnsigned cs

/-- Python `str.strip()`: drop leading and trailing whitespace. -/
def pyStrip (cs : List Char) : List Char :=
  ((cs.dropWhile Char.isWhitespace).reverse.dropWhile Char.isWhitespace).reverse

/-- One iteration of the listener's receive loop (lines 75-83) acting on the
distance cell: `dist_str = data.decode().strip()`; on successful
`float(dist_str)` the cell is overwritten, on `ValueError` it is unchanged. -/
def processChunk (cell : ℚ) (chunk : List Char) : ℚ :=
  match parseDecimal (pyStrip chunk) with
  | some v => v
  | none => cell

/-- The listener's effect on the distance cell over a sequence of received
chunks (each element is the byte content of one `conn.recv` return). -/
def runListener (cell : ℚ) (chunks : List (List Char)) : ℚ :=
  chunks.foldl processChunk cell

/-! ## Orchestrator loop (`start_detection`, lines 92-247) -/

/-- One raw detection produced by the classifier: the class name from
`self.model.names` and the box confidence. -/
structure Detection where
  label : String
  conf : ℚ
deriving DecidableEq

/-- Per-detection environment inputs: the two random draws of the alert
synthesizer and whether the collector POST (lines 219-224) returned a
response object (of any status) rather than raising. -/
structure DetEnv where
  jitter : ℚ
  r : ℚ
  dispatchOk : Bool
deriving DecidableEq

/-- Static deployment location of the alert payload (lines 205-209). -/
structure Location where
  latitude : ℚ
  longitude : ℚ
  zone : String
deriving DecidableEq

/-- The `payload` built at lines 204-216, minus the wall-clock timestamp
string (pure I/O, not modelled). -/
structure AlertEvent where
  location : Location
  detectionType : String
  severity : String
  animalType : String
  confidence : ℚ
  resolved : Bool
deriving DecidableEq

/-- `location` field of the payload: `{latitude: 40.7128, longitude: -74.006,
zone: "North Pasture"}`. -/
def payloadLocation : Location :=
  { latitude := 407128/10000, longitude := -74006/1000, zone := "North Pasture" }

/-- Alert synthesis for one monitored detection (lines 142-216): severity and
confidence are computed from the lower-cased class name and the two random
draws. -/
def synthAlert (d : Detection) (env : DetEnv) : AlertEvent :=
  { location := payloadLocation
    detectionType := "camera"
    severity := severityOf (pyLower d.label) env.r
    animalType := d.label
    confidence := confidence_val (pyLower d.label) d.conf env.jitter
    resolved := false }

/-- The per-detection body of the nested `for` loops (lines 132-232), folded
over the classifier's detections. A detection whose lower-cased label is not
in `animal_classes` is skipped. A monitored detection synthesizes an alert
and dispatches it; if the POST raised (so `response = None`), line 231
(`response.status_code`) raises `AttributeError`, which no handler catches —
modelled as `none`. Otherwise the alert is accumulated and
`animal_detected = True`. -/
def processDetections : List (Detection × DetEnv) → Option (List AlertEvent)
  | [] => some []
  | (d, env) :: rest =>
      if pyLower d.label ∈ animal_classes then
        if env.dispatchOk then
          (processDetections rest).map (fun alerts => synthAlert d env :: alerts)
        else
          none
      else
        processDetections rest

/-- The mutable state of the orchestrator loop that the claims concern:
`self.buzzer_on`, `self.last_buzzer_time`, and the local
`last_detection_time`. -/
structure LoopState where
  buzzer_on : Bool
  last_buzzer_time : ℚ
  last_detection_time : ℚ
deriving DecidableEq

/-- The inputs one loop iteration consumes from its environment: the frame
acquisition flag `ret`, the wall clock `now = time.time()`, the two reads of
the shared distance cell (`distGate` at line 128, `distTrigger` at line 235),
the classifier's detections with their per-detection environments, and the
outcomes of the auto-off and trigger buzzer commands. -/
structure IterInput where
  ret : Bool
  now : ℚ
  distGate : ℚ
  distTrigger : ℚ
  dets : List (Detection × DetEnv)
  offOutcome : CmdOutcome
  onOutcome : CmdOutcome
deriving DecidableEq

/-- Whether a buzzer command outcome counts as confirmed (status 200), the
condition under which `control_buzzer` updates the tracked flag. -/
def confirmed : CmdOutcome → Bool
  | .ok status => status == 200
  | .exn => false

/-- A record of one issued buzzer command: the commanded state, the loop's
`current_time` at issuance, and whether the service confirmed it. -/
structure CmdEvent where
  target : Bool
  time : ℚ
  success : Bool
deriving DecidableEq

/-- Lines 120-121: the auto-off check run every frame-bearing iteration.
Returns the updated state and the issued command events. -/
def autoOffPhase (s : LoopState) (inp : IterInput) : LoopState × List CmdEvent :=
  if s.buzzer_on = true ∧ buzzer_duration ≤ inp.now - s.last_buzzer_time then
    ({ s with buzzer_on := control_buzzer s.buzzer_on false inp.offOutcome },
     [{ target := false, time := inp.now, success := confirmed inp.offOutcome }])
  else
    (s, [])

/-- Lines 123-129: `results = []`, then, within a sample point, the classifier
is invoked only behind the proximity gate `current_distance <
distance_threshold`. -/
def gateResults (inp : IterInput) : List (Detection × DetEnv) :=
  if inp.distGate < distance_threshold then inp.dets else []

/-- `True` exactly on the paths of lines 110-129 that reach the classifier
call `self.model(small_frame, ...)`: a frame was obtained, the 0.5 s sampling
test passed, and the proximity gate passed. -/
def classifierInvoked (s : LoopState) (inp : IterInput) : Bool :=
  if inp.ret = false then false
  else if samplingInterval ≤ inp.now - s.last_detection_time then
    if inp.distGate < distance_threshold then true else false
  else false

/-- Lines 123-241 after the auto-off check: the sampling test, the gated
classifier invocation, detection processing, and the buzzer trigger of lines
235-238 (which updates `last_buzzer_time` to `current_time` unconditionally
after issuing the ON command), plus the `last_detection_time = current_time`
update of line 240. Returns the issued command events and `some` next state,
or `none` when the dispatch-crash `AttributeError` escapes. -/
def samplePhase (s1 : LoopState) (inp : IterInput) : List CmdEvent × Option LoopState :=
  if samplingInterval ≤ inp.now - s1.last_detection_time then
    match processDetections (gateResults inp) with
    | none => ([], none)
    | some alerts =>
        if alerts ≠ [] ∧ inp.distTrigger < distance_threshold then
          ([{ target := true, time := inp.now, success := confirmed inp.onOutcome }],
           some { buzzer_on := control_buzzer s1.buzzer_on true inp.onOutcome,
                  last_buzzer_time := inp.now,
                  last_detection_time := inp.now })
        else
          ([], some { s1 with last_detection_time := inp.now })
  else
    ([], some s1)

/-- One iteration of the `while True:` body (lines 110-241): a failed frame
read skips everything (`continue`); otherwise the auto-off check runs, then
the sample-point body. Returns the issued buzzer command events and `some`
next state, or `none` when an uncaught exception (the `AttributeError` of
line 231) escapes the body and terminates the loop. -/
def loopStep (s : LoopState) (inp : IterInput) : List CmdEvent × Option LoopState :=
  if inp.ret = false then ([], some s)
  else
    ((autoOffPhase s inp).2 ++ (samplePhase (autoOffPhase s inp).1 inp).1,
     (samplePhase (autoOffPhase s inp).1 inp).2)

/-- The alerts synthesized in one iteration's sample-point body (empty when
the dispatch crash aborts the iteration). -/
def iterAlerts (inp : IterInput) : List AlertEvent :=
  (processDetections (gateResults inp)).getD []

/-- Runs the loop over a list of iteration inputs, accumulating the issued
buzzer command events; stops with `none` if an iteration crashes. -/
def runLoop (s : LoopState) : List IterInput → List CmdEvent × Option LoopState
  | [] => ([], some s)
  | inp :: rest =>
      match loopStep s inp with
      | (ev, none) => (ev, none)
      | (ev, some s1) => (ev ++ (runLoop s1 rest).1, (runLoop s1 rest).2)

/-- The orchestrator's state on entry to the loop: `buzzer_on = False` (the
initial `control_buzzer(False)` at line 104 commands `False`, which cannot
set the flag to `True`), `last_buzzer_time = 0` (line 31), and
`last_detection_time = time.time()` at line 107, a parameter `t0`. -/
def initState (t0 : ℚ) : LoopState :=
  { buzzer_on := false, last_buzzer_time := 0, last_detection_time := t0 }

/-- Time of the most recent issued ON command among a list of command
events. -/
def lastOnCmdTime (evs : List CmdEvent) : Option ℚ :=
  evs.foldl (fun acc e => if e.target then some e.time else acc) none

/-- Time of the most recent successfully confirmed ON command among a list of
command events. -/
def lastSuccessfulOnTime (evs : List CmdEvent) : Option ℚ :=
  evs.foldl (fun acc e => if e.target && e.success then some e.time else acc) none

/-! ## Concrete fixtures used by witnesses and counterexamples -/

/-- A raw classifier detection: a dog at model confidence 0.8. -/
def dogDet : Detection := { label := "dog", conf := 4/5 }

/-- Benign per-detection environment: no jitter, median severity draw, and
the collector POST returns a response. -/
def envOk : DetEnv := { jitter := 0, r := 1/2, dispatchOk := true }

/-- Per-detection environment in which the collector POST raises (timeout or
connection error). -/
def envBad : DetEnv := { jitter := 0, r := 1/2, dispatchOk := false }

/-- An iteration at `now = 10` with a close-by dog whose alert dispatch
fails. -/
def inpCrash : IterInput :=
  { ret := true, now := 10, distGate := 40, distTrigger := 40,
    dets := [(dogDet, envBad)], offOutcome := .exn, onOutcome := .exn }

/-- The same iteration as `inpCrash` except that the alert dispatch returns a
response; the buzzer ON command still fails. -/
def inpCrashOkDispatch : IterInput :=
  { ret := true, now := 10, distGate := 40, distTrigger := 40,
    dets := [(dogDet, envOk)], offOutcome := .exn, onOutcome := .exn }

/-- An iteration at `now = 10` with a close-by dog, successful dispatch, and
a confirmed buzzer ON command. -/
def inpA : IterInput :=
  { ret := true, now := 10, distGate := 40, distTrigger := 40,
    dets := [(dogDet, envOk)], offOutcome := .exn, onOutcome := .ok 200 }

/-- An iteration at `now = 10.6` with a close-by dog and successful dispatch,
whose buzzer ON command raises. -/
def inpB : IterInput :=
  { ret := true, now := 53/5, distGate := 40, distTrigger := 40,
    dets := [(dogDet, envOk)], offOutcome := .exn, onOutcome := .exn }

/-- A buzzer-on state one second past its activation time. -/
def stOn : LoopState :=
  { buzzer_on := true, last_buzzer_time := 0, last_detection_time := 2 }

/-- A frameful iteration at `now = 2` with no sample point due (elapsed 0),
used to exercise the auto-off check alone. -/
def inpAuto : IterInput :=
  { ret := true, now := 2, distGate := 999, distTrigger := 999,
    dets := [], offOutcome := .ok 200, onOutcome := .ok 200 }

end SmartFarm

namespace SmartFarm

/-! ## Claim theorems -/

/-- C1. The spec says a collector dispatch failure is logged and swallowed
and the loop continues. The code instead crashes: after the POST raises,
`response` is `None` (line 227), and line 231 dereferences
`response.status_code`, raising `AttributeError`, which the loop's
`except KeyboardInterrupt` handler does not catch — the loop terminates.
In the same iteration with the dispatch returning a response, the loop
continues. -/
theorem dispatch_failure_crashes_loop :
    (loopStep (initState 0) inpCrash).2 = none ∧
    (loopStep (initState 0) inpCrashOkDispatch).2 =
      some { buzzer_on := false, last_buzzer_time := 10, last_detection_time := 10 } := by
  constructor
  · simp [loopStep, samplePhase, initState, inpCrash, autoOffPhase, gateResults,
      processDetections, dogDet, envBad, animal_classes, distance_threshold,
      samplingInterval, pyLower]
    norm_num
  · simp [loopStep, samplePhase, initState, inpCrashOkDispatch, autoOffPhase, gateResults,
      processDetections, dogDet, envOk, animal_classes, distance_threshold,
      samplingInterval, control_buzzer, confirmed, pyLower]
    norm_num

/-- C2. In every frame-bearing iteration, the classifier is invoked iff the
0.5 s sampling test and the strict proximity gate both pass, and when the
sampling test passes but the gate fails, the iteration's detection set
(`results`) is empty. -/
theorem classifier_gate (s : LoopState) (inp : IterInput) (hret : inp.ret = true) :
    (classifierInvoked s inp = true ↔
      (samplingInterval ≤ inp.now - s.last_detection_time ∧
        inp.distGate < distance_threshold)) ∧
    (samplingInterval ≤ inp.now - s.last_detection_time →
      ¬inp.distGate < distance_threshold → gateResults inp = []) := by
  constructor
  · simp only [classifierInvoked, hret]
    by_cases he : samplingInterval ≤ inp.now - s.last_detection_time
    · by_cases hd : inp.distGate < distance_threshold <;> simp [he, hd]
    · simp [he]
  · intro _ hd
    simp [gateResults, hd]

/-- Witness for C2 at a concrete iteration (frame obtained, both tests
pass). -/
theorem classifier_gate_witness :
    (classifierInvoked (initState 0) inpA = true ↔
      (samplingInterval ≤ inpA.now - (initState 0).last_detection_time ∧
        inpA.distGate < distance_threshold)) ∧
    (samplingInterval ≤ inpA.now - (initState 0).last_detection_time →
      ¬inpA.distGate < distance_threshold → gateResults inpA = []) :=
  classifier_gate (initState 0) inpA rfl

/-- C3. `control_buzzer` updates the tracked flag to the commanded state
exactly when the service confirms with status 200; on any other status or on
an exception the flag keeps its previous value. -/
theorem control_buzzer_consistency (old target : Bool) (outcome : CmdOutcome) :
    (outcome = .ok 200 → control_buzzer old target outcome = target) ∧
    (outcome ≠ .ok 200 → control_buzzer old target outcome = old) := by
  cases outcome with
  | ok status =>
      constructor
      · intro h
        cases h
        simp [control_buzzer]
      · intro h
        have hs : status ≠ 200 := by
          intro hc
          exact h (by rw [hc])
        simp [control_buzzer, hs]
  | exn =>
      constructor
      · intro h
        cases h
      · intro _
        simp [control_buzzer]

/-- Witness for C3: one confirmed command, one rejected, one raising. -/
theorem control_buzzer_consistency_witness :
    control_buzzer false true (.ok 200) = true ∧
    control_buzzer false true (.ok 500) = false ∧
    control_buzzer true false .exn = true :=
  ⟨(control_buzzer_consistency false true (.ok 200)).1 rfl,
   (control_buzzer_consistency false true (.ok 500)).2 (by decide),
   (control_buzzer_consistency true false .exn).2 (by decide)⟩

/-- C9. A received chunk whose trimmed content does not parse as a decimal
leaves the distance cell unchanged, and processing of subsequent input
continues. -/
theorem listener_malformed_unchanged (cell : ℚ) (chunk : List Char)
    (rest : List (List Char)) (h : parseDecimal (pyStrip chunk) = none) :
    runListener cell (chunk :: rest) = runListener cell rest := by
  simp [runListener, processChunk, h]

/-- Witness for C9: the scenario line `"abc"` leaves the cell at 999. -/
theorem listener_malformed_unchanged_witness :
    runListener 999 ["abc".toList] = runListener 999 [] :=
  listener_malformed_unchanged 999 "abc".toList [] (by decide)

/-- C10. Every label of the monitored allow-list has an entry in both the
base-severity table and the confidence-range table, so for a detection that
passes the case-insensitive filter both lookups succeed and the fallback
defaults are unreachable. -/
theorem allowlist_tables_total (label : String)
    (h : pyLower label ∈ animal_classes) :
    (base_map.lookup (pyLower label)).isSome = true ∧
    (conf_ranges.lookup (pyLower label)).isSome = true := by
  simp only [animal_classes, List.mem_cons, List.not_mem_nil, or_false] at h
  rcases h with h | h | h | h | h | h | h | h | h | h | h <;> rw [h] <;> decide

/-- Witness for C10 at the mixed-case label `"Dog"`. -/
theorem allowlist_tables_total_witness :
    (base_map.lookup (pyLower "Dog")).isSome = true ∧
    (conf_ranges.lookup (pyLower "Dog")).isSome = true :=
  allowlist_tables_total "Dog" (by decide)

/-- C8 counterexample. The claim says the listener splits the byte stream on
line boundaries, so after a stream consisting of the two newline-terminated
valid decimal lines `"12.5"` and `"13.0"` the cell would equal 12.5 and then
13.0. The code instead strips and parses each `recv` chunk whole: when both
lines arrive in one chunk, `float("12.5\n13.0")` raises and the cell keeps
its prior value 999, equal to neither line's value. -/
theorem listener_linesplit_counterexample :
    runListener 999 ["12.5\n13.0\n".toList] = 999 ∧
    parseDecimal (pyStrip "12.5".toList) = some (25/2) ∧
    parseDecimal (pyStrip "13.0".toList) = some 13 ∧
    (999 : ℚ) ≠ 25/2 ∧ (999 : ℚ) ≠ 13 := by
  refine ⟨by decide, ?_, ?_, by norm_num, by norm_num⟩
  · simp [parseDecimal, pyStrip, parseUnsigned, natOfDigits, digitVal]
    norm_num
  · simp [parseDecimal, pyStrip, parseUnsigned, natOfDigits, digitVal]

/-- C8 amended. The listener treats each received chunk as one reading:
whenever the trimmed content of a whole chunk parses as the decimal value
`d` (in particular, when a valid decimal line arrives as its own chunk), the
distance cell equals `d` immediately after that chunk is processed,
regardless of its prior value. -/
theorem listener_chunk_update (cell d : ℚ) (chunk : List Char)
    (h : parseDecimal (pyStrip chunk) = some d) :
    processChunk cell chunk = d := by
  simp [processChunk, h]

/-- Witness for the amended C8: the newline-terminated chunk `"12.5\n"`
overwrites a cell holding 0 with 12.5. -/
theorem listener_chunk_update_witness :
    processChunk 0 "12.5\n".toList = 25/2 :=
  listener_chunk_update 0 (25/2) "12.5\n".toList
    (by simp [parseDecimal, pyStrip, parseUnsigned, natOfDigits, digitVal]; norm_num)

/-- Any index clamped into `[0, |severity_order| - 1]` selects an element of
`severity_order`. -/
lemma severity_order_getD_mem (z : ℤ) :
    severity_order.getD
      (Int.toNat (max 0 (min ((severity_order.length : ℤ) - 1) z))) "" ∈
      severity_order := by
  have hle : (max 0 (min ((severity_order.length : ℤ) - 1) z)) ≤ 3 := by
    have h1 : min ((severity_order.length : ℤ) - 1) z ≤ (severity_order.length : ℤ) - 1 :=
      min_le_left _ _
    have h2 : ((severity_order.length : ℤ) - 1) = 3 := by decide
    omega
  set n := Int.toNat (max 0 (min ((severity_order.length : ℤ) - 1) z)) with hn
  have hn3 : n ≤ 3 := by omega
  interval_cases n <;> decide

/-- C6. For any monitored label and random draw `r ∈ [0,1)`, the severity
offset follows the claimed bands (`+2` below 0.05, `+1` on `[0.05, 0.20)`,
`-1` on `[0.20, 0.25)`, `0` otherwise), the synthesized severity is the
label's base severity index (default `"medium"`) plus that offset clamped
into the severity list, and the result is always one of the four severity
values. -/
theorem severity_synthesis (label : String) (r : ℚ) (h0 : 0 ≤ r) (h1 : r < 1) :
    severityOf label r ∈ severity_order ∧
    (r < 5/100 → severityOffset r = 2) ∧
    (5/100 ≤ r → r < 20/100 → severityOffset r = 1) ∧
    (20/100 ≤ r → r < 25/100 → severityOffset r = -1) ∧
    (25/100 ≤ r → severityOffset r = 0) ∧
    severityOf label r =
      severity_order.getD
        (Int.toNat (max 0 (min ((severity_order.length : ℤ) - 1)
          ((severity_order.indexOf ((base_map.lookup label).getD "medium") : ℤ) +
            severityOffset r)))) "" := by
  refine ⟨severity_order_getD_mem _, ?_, ?_, ?_, ?_, rfl⟩
  · intro h
    simp [severityOffset, h]
  · intro ha hb
    have : ¬r < 5/100 := by linarith
    simp [severityOffset, this, hb]
  · intro ha hb
    have h5 : ¬r < 5/100 := by linarith
    have h20 : ¬r < 20/100 := by linarith
    simp [severityOffset, h5, h20, hb]
  · intro ha
    have h5 : ¬r < 5/100 := by linarith
    have h20 : ¬r < 20/100 := by linarith
    have h25 : ¬r < 25/100 := by linarith
    simp [severityOffset, h5, h20, h25]

/-- Witness for C6: severity synthesized for `"dog"` at draw 0.1 is a member
of the severity list. -/
theorem severity_synthesis_witness :
    severityOf "dog" (1/10) ∈ severity_order :=
  (severity_synthesis "dog" (1/10) (by norm_num) (by norm_num)).1

/-- The clamp of line 182 keeps the remapped confidence in `[0, 1]`. -/
lemma mappedConf_bounds (label : String) (raw jitter : ℚ) :
    0 ≤ mappedConf label raw jitter ∧ mappedConf label raw jitter ≤ 1 := by
  unfold mappedConf
  exact ⟨le_max_left _ _, max_le (by norm_num) (min_le_left _ _)⟩

/-- C7. For a monitored detection with raw confidence in `[0,1]` and jitter
in `[-0.02, 0.02]`, the synthesized confidence is the clamped remapped value
as a percentage rounded to one decimal; consequently it is an integer number
of tenths between 0 and 100. -/
theorem confidence_synthesis (label : String) (raw jitter : ℚ)
    (h0 : 0 ≤ raw) (h1 : raw ≤ 1) (h2 : -(2/100) ≤ jitter) (h3 : jitter ≤ 2/100) :
    ∃ n : ℤ, confidence_val label raw jitter = (n : ℚ) / 10 ∧
      0 ≤ n ∧ n ≤ 1000 ∧
      0 ≤ confidence_val label raw jitter ∧ confidence_val label raw jitter ≤ 100 := by
  obtain ⟨hm0, hm1⟩ := mappedConf_bounds label raw jitter
  have hmono : ∀ x y : ℚ, x ≤ y → round x ≤ round y := by
    intro x y hxy
    rw [round_eq, round_eq]
    exact Int.floor_le_floor (by linarith)
  have hn0 : 0 ≤ round (mappedConf label raw jitter * 100 * 10) := by
    have h := hmono 0 (mappedConf label raw jitter * 100 * 10) (by positivity)
    simpa using h
  have hn1 : round (mappedConf label raw jitter * 100 * 10) ≤ 1000 := by
    have h := hmono (mappedConf label raw jitter * 100 * 10) 1000 (by nlinarith)
    have h1000 : round ((1000 : ℚ)) = 1000 := by
      rw [show ((1000 : ℚ)) = ((1000 : ℤ) : ℚ) by norm_num, round_intCast]
    omega
  have heq : confidence_val label raw jitter =
      ((round (mappedConf label raw jitter * 100 * 10) : ℤ) : ℚ) / 10 := rfl
  refine ⟨round (mappedConf label raw jitter * 100 * 10), heq, hn0, hn1, ?_, ?_⟩
  · rw [heq]
    positivity
  · rw [heq]
    rw [div_le_iff₀ (by norm_num : (0:ℚ) < 10)]
    calc ((round (mappedConf label raw jitter * 100 * 10) : ℤ) : ℚ) ≤ ((1000 : ℤ) : ℚ) := by
          exact_mod_cast hn1
      _ = 100 * 10 := by norm_num

/-- Witness for C7 at `"dog"`, raw confidence 0.8, zero jitter. -/
theorem confidence_synthesis_witness :
    ∃ n : ℤ, confidence_val "dog" (4/5) 0 = (n : ℚ) / 10 ∧
      0 ≤ n ∧ n ≤ 1000 ∧
      0 ≤ confidence_val "dog" (4/5) 0 ∧ confidence_val "dog" (4/5) 0 ≤ 100 :=
  confidence_synthesis "dog" (4/5) 0 (by norm_num) (by norm_num) (by norm_num) (by norm_num)

/-! ## Helper lemmas on the actuator phases and command histories -/

/-- An OFF command can never set the tracked flag. -/
lemma control_buzzer_off_on (b : Bool) (o : CmdOutcome)
    (h : control_buzzer b false o = true) : b = true := by
  cases o with
  | ok status =>
      simp only [control_buzzer] at h
      by_cases hs : (status == 200) = true
      · rw [if_pos hs] at h
        exact absurd h (by decide)
      · rwa [if_neg hs] at h
  | exn => exact h

/-- The auto-off phase changes neither recorded time. -/
lemma autoOffPhase_times (s : LoopState) (inp : IterInput) :
    (autoOffPhase s inp).1.last_buzzer_time = s.last_buzzer_time ∧
    (autoOffPhase s inp).1.last_detection_time = s.last_detection_time := by
  unfold autoOffPhase
  split <;> simp

/-- The auto-off phase cannot turn the tracked flag on. -/
lemma autoOffPhase_on (s : LoopState) (inp : IterInput)
    (h : (autoOffPhase s inp).1.buzzer_on = true) : s.buzzer_on = true := by
  unfold autoOffPhase at h
  split at h
  · exact control_buzzer_off_on _ _ h
  · exact h

/-- With the buzzer off, the auto-off phase does nothing. -/
lemma autoOffPhase_of_off (s : LoopState) (inp : IterInput)
    (h : s.buzzer_on = false) : autoOffPhase s inp = (s, []) := by
  unfold autoOffPhase
  rw [if_neg]
  intro hc
  rw [h] at hc
  exact absurd hc.1 (by decide)

/-- With the buzzer on and the auto-off duration elapsed, the auto-off phase
issues an OFF command stamped with the iteration's time. -/
lemma autoOffPhase_of_due (s : LoopState) (inp : IterInput)
    (h1 : s.buzzer_on = true) (h2 : buzzer_duration ≤ inp.now - s.last_buzzer_time) :
    (autoOffPhase s inp).2 =
      [{ target := false, time := inp.now, success := confirmed inp.offOutcome }] := by
  unfold autoOffPhase
  rw [if_pos ⟨h1, h2⟩]

/-- The auto-off phase issues only OFF commands. -/
lemma lastOnCmdTime_autoOff (s : LoopState) (inp : IterInput) :
    lastOnCmdTime (autoOffPhase s inp).2 = none := by
  unfold autoOffPhase
  split <;> rfl

/-- Folding the ON-command tracker from an arbitrary accumulator. -/
lemma lastOnCmdTime_foldl_init (evs : List CmdEvent) (init : Option ℚ) :
    evs.foldl (fun acc e => if e.target then some e.time else acc) init =
      (lastOnCmdTime evs).elim init some := by
  induction evs generalizing init with
  | nil => rfl
  | cons e tl ih =>
      show List.foldl _ (if e.target then some e.time else init) tl = _
      rw [ih]
      have hr : lastOnCmdTime (e :: tl) =
          (lastOnCmdTime tl).elim (if e.target then some e.time else none) some := by
        show List.foldl _ (if e.target then some e.time else none) tl = _
        rw [ih]
      rw [hr]
      cases htl : lastOnCmdTime tl with
      | none =>
          by_cases ht : e.target = true <;> simp [ht]
      | some t => simp

/-- The most recent ON command of a concatenated history. -/
lemma lastOnCmdTime_append (a b : List CmdEvent) :
    lastOnCmdTime (a ++ b) = (lastOnCmdTime b).elim (lastOnCmdTime a) some := by
  show List.foldl _ none (a ++ b) = _
  rw [List.foldl_append]
  exact lastOnCmdTime_foldl_init b (lastOnCmdTime a)

/-- Case analysis of the sample-point phase: either it issued an ON command
stamped with the iteration's time, which is also the recorded
`last_buzzer_time`, or it issued nothing and left flag and activation time
alone. -/
lemma samplePhase_spec (s1 : LoopState) (inp : IterInput) (ev : List CmdEvent)
    (s' : LoopState) (h : samplePhase s1 inp = (ev, some s')) :
    (lastOnCmdTime ev = some s'.last_buzzer_time) ∨
    (ev = [] ∧ s'.last_buzzer_time = s1.last_buzzer_time ∧
      s'.buzzer_on = s1.buzzer_on) := by
  unfold samplePhase at h
  split at h
  · split at h
    · exact absurd h (by simp)
    · split at h
      · left
        injection h with h1 h2
        injection h2 with h2
        subst h1
        subst h2
        rfl
      · right
        injection h with h1 h2
        injection h2 with h2
        subst h1
        subst h2
        exact ⟨rfl, rfl, rfl⟩
  · right
    injection h with h1 h2
    injection h2 with h2
    subst h1
    subst h2
    exact ⟨rfl, rfl, rfl⟩

/-- Per-iteration accounting for the amended activation-time invariant:
either the iteration issued an ON command whose time is the new
`last_buzzer_time`, or it issued none, preserved `last_buzzer_time`, and
could not have switched the flag on. -/
lemma loopStep_lastOn (s : LoopState) (inp : IterInput) (ev : List CmdEvent)
    (s' : LoopState) (h : loopStep s inp = (ev, some s')) :
    lastOnCmdTime ev = some s'.last_buzzer_time ∨
    (lastOnCmdTime ev = none ∧ s'.last_buzzer_time = s.last_buzzer_time ∧
      (s'.buzzer_on = true → s.buzzer_on = true)) := by
  unfold loopStep at h
  by_cases hr : inp.ret = false
  · rw [if_pos hr] at h
    injection h with h1 h2
    injection h2 with h2
    subst h1
    subst h2
    exact Or.inr ⟨rfl, rfl, fun hb => hb⟩
  · rw [if_neg hr] at h
    injection h with h1 h2
    cases hsp : samplePhase (autoOffPhase s inp).1 inp with
    | mk spev sps =>
        rw [hsp] at h1 h2
        dsimp only at h1 h2
        subst h1
        subst h2
        rcases samplePhase_spec _ _ _ _ hsp with hl | ⟨hnil, hlast, hon⟩
        · left
          rw [lastOnCmdTime_append, hl]
          rfl
        · right
          subst hnil
          rw [List.append_nil, lastOnCmdTime_autoOff]
          refine ⟨rfl, ?_, ?_⟩
          · rw [hlast, (autoOffPhase_times s inp).1]
          · intro hb
            exact autoOffPhase_on s inp (hon ▸ hb)

/-- C5. (a) The tracked actuator state transitions OFF to ON in an iteration
only if that iteration synthesized at least one alert and the distance read
at trigger time was strictly below the threshold. (b) Whenever a frame is
obtained with the buzzer on and `now - last_buzzer_time ≥ buzzer_duration`,
an OFF command stamped with that iteration's time is issued, regardless of
the sampling cadence. -/
theorem actuator_transitions (s : LoopState) (inp : IterInput) :
    (∀ ev s', loopStep s inp = (ev, some s') → s.buzzer_on = false →
      s'.buzzer_on = true →
        iterAlerts inp ≠ [] ∧ inp.distTrigger < distance_threshold) ∧
    (inp.ret = true → s.buzzer_on = true →
      buzzer_duration ≤ inp.now - s.last_buzzer_time →
        ∃ e ∈ (loopStep s inp).1, e.target = false ∧ e.time = inp.now) := by
  constructor
  · intro ev s' h hoff hon
    unfold loopStep at h
    by_cases hr : inp.ret = false
    · rw [if_pos hr] at h
      injection h with h1 h2
      injection h2 with h2
      rw [← h2] at hon
      rw [hon] at hoff
      exact absurd hoff (by decide)
    · rw [if_neg hr] at h
      injection h with h1 h2
      rw [autoOffPhase_of_off s inp hoff] at h1 h2
      unfold samplePhase at h2
      split at h2
      · split at h2
        · exact absurd h2 (by simp)
        · next alerts halerts =>
            split at h2
            · next htrig =>
                refine ⟨?_, htrig.2⟩
                unfold iterAlerts
                rw [halerts]
                simpa using htrig.1
            · injection h2 with h2
              rw [← h2] at hon
              rw [hon] at hoff
              exact absurd hoff (by decide)
      · injection h2 with h2
        rw [← h2] at hon
        rw [hon] at hoff
        exact absurd hoff (by decide)
  · intro hret hon hdue
    unfold loopStep
    rw [if_neg (by rw [hret]; exact fun hc => by cases hc)]
    refine ⟨{ target := false, time := inp.now, success := confirmed inp.offOutcome },
      ?_, rfl, rfl⟩
    apply List.mem_append_left
    rw [autoOffPhase_of_due s inp hon hdue]
    exact List.mem_singleton_self _

/-- Witness for C5: iteration `inpA` turns the buzzer ON (so the alert set is
nonempty and the trigger distance is below threshold), and in an iteration
with the buzzer one second past activation an OFF command is issued. -/
theorem actuator_transitions_witness :
    (iterAlerts inpA ≠ [] ∧ inpA.distTrigger < distance_threshold) ∧
    (∃ e ∈ (loopStep stOn inpAuto).1, e.target = false ∧ e.time = inpAuto.now) := by
  constructor
  · exact (actuator_transitions (initState 0) inpA).1
      [{ target := true, time := 10, success := true }]
      { buzzer_on := true, last_buzzer_time := 10, last_detection_time := 10 }
      (by simp [loopStep, samplePhase, initState, inpA, autoOffPhase, gateResults,
          processDetections, dogDet, envOk, animal_classes, distance_threshold,
          samplingInterval, control_buzzer, confirmed, pyLower]
          norm_num)
      rfl rfl
  · exact (actuator_transitions stOn inpAuto).2 rfl rfl
      (by norm_num [stOn, inpAuto, buzzer_duration])

/-- Accounting for the amended activation-time invariant over a whole run:
either some ON command was issued and the last one is stamped with the final
`last_buzzer_time`, or no ON command was ever issued, `last_buzzer_time` is
untouched, and the flag cannot have switched on. -/
lemma runLoop_lastOn : ∀ (inps : List IterInput) (s : LoopState)
    (ev : List CmdEvent) (s' : LoopState), runLoop s inps = (ev, some s') →
    lastOnCmdTime ev = some s'.last_buzzer_time ∨
    (lastOnCmdTime ev = none ∧ s'.last_buzzer_time = s.last_buzzer_time ∧
      (s'.buzzer_on = true → s.buzzer_on = true))
  | [], s, ev, s', h => by
      unfold runLoop at h
      injection h with h1 h2
      injection h2 with h2
      subst h1
      subst h2
      exact Or.inr ⟨rfl, rfl, fun hb => hb⟩
  | inp :: rest, s, ev, s', h => by
      unfold runLoop at h
      cases hstep : loopStep s inp with
      | mk ev1 s1? =>
          rw [hstep] at h
          cases s1? with
          | none =>
              dsimp only at h
              injection h with h1 h2
              exact absurd h2 (by simp)
          | some s1 =>
              dsimp only at h
              cases hrun : runLoop s1 rest with
              | mk ev2 r2 =>
                  rw [hrun] at h
                  dsimp only at h
                  injection h with h1 h2
                  subst h1
                  subst h2
                  have ih := runLoop_lastOn rest s1 ev2 s' hrun
                  have hst := loopStep_lastOn s inp ev1 s1 hstep
                  rw [lastOnCmdTime_append]
                  rcases ih with ihl | ⟨ihn, ihlast, ihon⟩
                  · left
                    rw [ihl]
                    rfl
                  · rw [ihn]
                    dsimp only [Option.elim]
                    rcases hst with hstl | ⟨hstn, hstlast, hston⟩
                    · left
                      rw [hstl, ihlast]
                    · right
                      exact ⟨hstn, by rw [ihlast, hstlast],
                        fun hb => hston (ihon hb)⟩

/-- C4 counterexample. Starting from the initial state, iteration `inpA`
(time 10) turns the buzzer ON with a confirmed command; iteration `inpB`
(time 10.6) re-triggers but its ON command raises, so the tracked flag stays
ON while `last_buzzer_time` is overwritten with 10.6 (line 238 runs
unconditionally). The state is reachable with `buzzer_on = true` and
activation time 10.6, yet the most recent successfully confirmed ON command
of the run was at time 10. -/
theorem buzzer_activation_time_counterexample :
    runLoop (initState 0) [inpA, inpB] =
      ([{ target := true, time := 10, success := true },
        { target := true, time := 53/5, success := false }],
       some { buzzer_on := true, last_buzzer_time := 53/5,
              last_detection_time := 53/5 }) ∧
    lastSuccessfulOnTime
      [{ target := true, time := (10 : ℚ), success := true },
       { target := true, time := 53/5, success := false }] = some 10 ∧
    (53/5 : ℚ) ≠ 10 := by
  refine ⟨?_, rfl, by norm_num⟩
  simp [runLoop, loopStep, samplePhase, initState, inpA, inpB, autoOffPhase,
    gateResults, processDetections, dogDet, envOk, animal_classes,
    distance_threshold, samplingInterval, buzzer_duration, control_buzzer,
    confirmed, pyLower]
  norm_num

/-- C4 amended. In every reachable state of the orchestrator loop, if the
tracked actuator state is ON then `last_buzzer_time` equals the time of the
most recent issued ON command — whether or not that command was confirmed by
the actuator service. -/
theorem buzzer_activation_time_amended (inps : List IterInput) (t0 : ℚ)
    (ev : List CmdEvent) (s' : LoopState)
    (h : runLoop (initState t0) inps = (ev, some s'))
    (hon : s'.buzzer_on = true) :
    lastOnCmdTime ev = some s'.last_buzzer_time := by
  rcases runLoop_lastOn inps (initState t0) ev s' h with hl | ⟨_, _, himp⟩
  · exact hl
  · exact absurd (himp hon) (by simp [initState])

/-- Witness for the amended C4 on the one-iteration run `[inpA]`. -/
theorem buzzer_activation_time_amended_witness :
    lastOnCmdTime [{ target := true, time := (10 : ℚ), success := true }] =
      some (10 : ℚ) :=
  buzzer_activation_time_amended [inpA] 0
    [{ target := true, time := 10, success := true }]
    { buzzer_on := true, last_buzzer_time := 10, last_detection_time := 10 }
    (by simp [runLoop, loopStep, samplePhase, initState, inpA, autoOffPhase,
        gateResults, processDetections, dogDet, envOk, animal_classes,
        distance_threshold, samplingInterval, control_buzzer, confirmed, pyLower]
        norm_num)
    rfl

end SmartFarm
